import Mathlib

/-!
Verification development for the G-Scribe visit-note backend (`src/server.js`).

The JavaScript string functions are shallowly embedded over `List Char`
(`Str` below).  JS strings become `Str`; JS regular expressions used by the
code are embedded as executable matchers with the same semantics on the
inputs the server manipulates (ASCII text; `Char.toLower`/`Char.toUpper`
are the ASCII case maps, which agree with JS `toLowerCase`/`toUpperCase`
on the ASCII keyword lists the code uses).  The `/generate` Express handler
is embedded as a pure function `generate` over an explicit oracle
(`Nat → Str`, the n-th chat-completion response), an explicit random stream
for first-touch rotation picks, and an explicit rotation-memory map.
-/

namespace GScribe

abbrev Str := List Char

def S (s : String) : Str := s.data

/-- The character class matched by JS `\s` (ECMAScript WhiteSpace and
LineTerminator). -/
def jsWsChars : Str :=
  [' ', '\t', '\n', '\r', Char.ofNat 11, Char.ofNat 12, Char.ofNat 160,
   Char.ofNat 0x1680, Char.ofNat 0x2000, Char.ofNat 0x2001, Char.ofNat 0x2002,
   Char.ofNat 0x2003, Char.ofNat 0x2004, Char.ofNat 0x2005, Char.ofNat 0x2006,
   Char.ofNat 0x2007, Char.ofNat 0x2008, Char.ofNat 0x2009, Char.ofNat 0x200A,
   Char.ofNat 0x2028, Char.ofNat 0x2029, Char.ofNat 0x202F, Char.ofNat 0x205F,
   Char.ofNat 0x3000, Char.ofNat 0xFEFF]

def isJsWs (c : Char) : Bool := jsWsChars.contains c

/-- JS `String.prototype.trim`. -/
def trimJs (s : Str) : Str :=
  ((s.dropWhile isJsWs).reverse.dropWhile isJsWs).reverse

/-- One pass of `.replace(/\r\n/g, "\n")`. -/
def replaceCRLF : Str → Str
  | [] => []
  | '\r' :: '\n' :: rest => '\n' :: replaceCRLF rest
  | c :: rest => c :: replaceCRLF rest

/-- One pass of `.replace(/[ \t]+/g, " ")`: collapse every run of spaces and
tabs to a single space.  The Boolean state records whether we are inside a
run whose replacement space has already been emitted. -/
def collapseSpTabAux : Bool → Str → Str
  | _, [] => []
  | inRun, c :: rest =>
    if c = ' ' ∨ c = '\t' then
      if inRun then collapseSpTabAux true rest
      else ' ' :: collapseSpTabAux true rest
    else c :: collapseSpTabAux false rest

def collapseSpTab (s : Str) : Str := collapseSpTabAux false s

/-- One pass of `.replace(/\n{3,}/g, "\n\n")`: runs of three or more
newlines are replaced by exactly two.  The counter is the number of
newlines already emitted for the current run. -/
def collapseNLAux : Nat → Str → Str
  | _, [] => []
  | k, c :: rest =>
    if c = '\n' then
      if k ≥ 2 then collapseNLAux k rest
      else '\n' :: collapseNLAux (k + 1) rest
    else c :: collapseNLAux 0 rest

def collapseNL (s : Str) : Str := collapseNLAux 0 s

/-- `normalizeSpaces` from `src/server.js`. -/
def normalizeSpaces (s : Str) : Str :=
  trimJs (collapseNL (collapseSpTab (replaceCRLF s)))

/-- `normalizeNewlines` from `src/server.js`. -/
def normalizeNewlines (s : Str) : Str :=
  trimJs (collapseNL (replaceCRLF s))

/-- `isSingleLine` from `src/server.js`: the string has no newline. -/
def isSingleLine (s : Str) : Bool := !(s.contains '\n')

/-- Case-sensitive substring containment, i.e. JS `String.prototype.includes`. -/
def hasSub (h n : Str) : Bool :=
  match h with
  | [] => List.isPrefixOf n []
  | c :: t => List.isPrefixOf n (c :: t) || hasSub t n

def lowerStr (s : Str) : Str := s.map Char.toLower

def upperStr (s : Str) : Str := s.map Char.toUpper

/-- Case-insensitive containment: both sides lowercased, as in
`includesAny`/`mustIncludeAny` in the source. -/
def containsCI (h n : Str) : Bool := hasSub (lowerStr h) (lowerStr n)

/-- `includesAny` from `src/server.js`. -/
def includesAny (h : Str) (needles : List Str) : Bool :=
  needles.any (fun n => containsCI h n)

/-- `mustIncludeAny` from `src/server.js` (same computation as
`includesAny`, kept separate because the source defines both). -/
def mustIncludeAny (text : Str) (terms : List Str) : Bool :=
  terms.any (fun t => containsCI text t)

-- ---------------- Patient-based rotation (stable variations) ----------------

/-- The process-wide `patientMemory` map, embedded as an association list. -/
abbrev Mem := List (Str × Nat)

def memGet (m : Mem) (k : Str) : Option Nat :=
  (m.find? (fun p => p.1 == k)).map (fun p => p.2)

def memSet (m : Mem) (k : Str) (v : Nat) : Mem :=
  match m with
  | [] => [(k, v)]
  | p :: rest => if p.1 == k then (k, v) :: rest else p :: memSet rest k v

def natToStr (n : Nat) : Str := (Nat.repr n).data

/-- `pickForPatient` from `src/server.js`.  `r` models the
`Math.floor(Math.random() * arr.length)` value drawn on the first touch of
a key (any value in `[0, arr.length)` is reachable; we reduce mod the pool
length).  Returns the picked element together with the updated memory. -/
def pickForPatient (m : Mem) (r : Nat) (patientKey : Str) (arr : List Str) :
    Str × Mem :=
  let key := patientKey ++ S "::" ++ natToStr arr.length
  let idx := match memGet m key with
    | none => r % arr.length
    | some i => (i + 1) % arr.length
  (arr.getD idx (S ""), memSet m key idx)

def SUMMARY_INTRO_PREFIXES : List Str :=
  [S "Today, pt ", S "Overall, pt ", S "Pt demonstrates ", S "Pt displays ",
   S "Pt shows ", S "Pt completes", S "Therapy tx focuses on",
   S "During today's tx, pt ", S "Pt continues ", S "Pt presents ",
   S "Assessment displays", S "Tx focused on ",
   S "Functional mobility indicates pt "]

def SUMMARY_CLOSERS : List Str :=
  [S "Continued skilled PT remains indicated to progress POC and support functional carryover to ADLs.",
   S "Continued skilled PT remains indicated to address impairments and promote safe mobility to meet goals.",
   S "Continued skilled PT remains indicated to improve strength, ROM, and functional tolerance for PLOF.",
   S "Continued skilled PT remains indicated to reduce fall/injury risk and improve safe functional independence.",
   S "Continued skilled PT remains indicated to advance therapeutic progression and optimize functional outcomes."]

def OT_SUMMARY_CLOSERS : List Str :=
  [S "Continued skilled OT remains indicated to progress POC and support functional carryover to ADLs.",
   S "Continued skilled OT remains indicated to address impairments and promote safe performance of ADLs/IADLs to meet goals.",
   S "Continued skilled OT remains indicated to improve UE function, coordination, and task tolerance for ADLs and PLOF.",
   S "Continued skilled OT remains indicated to reduce fall/injury risk and improve safe functional independence.",
   S "Continued skilled OT remains indicated to advance therapeutic progression and optimize functional outcomes."]

def POC_OPENERS : List Str :=
  [S "Continue to focus on", S "Plan to progress",
   S "Continue skilled PT emphasizing", S "Continue with a focus on",
   S "Proceed with ongoing skilled PT targeting",
   S "Maintain POC with emphasis on", S "Continue intervention focus on",
   S "Advance POC with continued emphasis on"]

def OT_POC_OPENERS : List Str :=
  [S "Continue to focus on", S "Plan to progress",
   S "Continue skilled OT emphasizing", S "Continue with a focus on",
   S "Proceed with ongoing skilled OT targeting",
   S "Maintain POC with emphasis on", S "Continue intervention focus on",
   S "Advance POC with continued emphasis on"]

inductive Discipline where
  | PT
  | OT
deriving DecidableEq

def pickIntroPrefix (m : Mem) (r : Nat) (patientLabel : Str) : Str × Mem :=
  pickForPatient m r (patientLabel ++ S "::intro") SUMMARY_INTRO_PREFIXES

def pickCloserForDiscipline (m : Mem) (r : Nat) (patientLabel : Str)
    (d : Discipline) : Str × Mem :=
  match d with
  | Discipline.OT => pickForPatient m r (patientLabel ++ S "::closeOT") OT_SUMMARY_CLOSERS
  | Discipline.PT => pickForPatient m r (patientLabel ++ S "::closePT") SUMMARY_CLOSERS

def pickPocOpenerForDiscipline (m : Mem) (r : Nat) (patientLabel : Str)
    (d : Discipline) : Str × Mem :=
  match d with
  | Discipline.OT => pickForPatient m r (patientLabel ++ S "::pocOT") OT_POC_OPENERS
  | Discipline.PT => pickForPatient m r (patientLabel ++ S "::pocPT") POC_OPENERS

-- ---------------- Parsing / counting helpers ----------------

def isSentenceTerm (c : Char) : Bool := c = '.' || c = '!' || c = '?'

/-- The JS split on `/(?<=[.!?])\s+/`: a cut happens after a sentence
terminator that is followed by at least one whitespace character, and the
whole whitespace run is the delimiter.  `parts` accumulates finished parts
in reverse, `acc` the current part in reverse, and the flag records that we
are inside a delimiter's whitespace run. -/
def sentSplitAux : List Str → Str → Bool → Str → List Str
  | parts, acc, _, [] => (acc.reverse :: parts).reverse
  | parts, acc, skipping, c :: rest =>
    if skipping ∧ isJsWs c then
      sentSplitAux parts acc true rest
    else if isSentenceTerm c ∧ (rest.head?.elim false isJsWs) then
      sentSplitAux ((c :: acc).reverse :: parts) [] true rest
    else
      sentSplitAux parts (c :: acc) false rest

/-- `t.split(/(?<=[.!?])\s+/).filter(Boolean)` on an already available
string `t`. -/
def sentenceParts (t : Str) : List Str :=
  (sentSplitAux [] [] false t).filter (fun p => p ≠ [])

/-- `countSentences` from `src/server.js`. -/
def countSentences (text : Str) : Nat :=
  let t := trimJs text
  if t = [] then 0 else (sentenceParts t).length

/-- `getLastSentence` from `src/server.js`. -/
def getLastSentence (text : Str) : Str :=
  let t := trimJs text
  let parts := sentenceParts t
  match parts.getLast? with
  | some p => trimJs p
  | none => []

/-- `includesExactClosingPhrase` from `src/server.js`. -/
def includesExactClosingPhrase (lastSentence : Str) (d : Discipline) : Bool :=
  let needle := match d with
    | Discipline.OT => S "Continued skilled OT remains indicated"
    | Discipline.PT => S "Continued skilled PT remains indicated"
  hasSub lastSentence needle

-- ---------------- Section parser ----------------

structure Sections where
  subjective : Str
  summary : Str
  poc : Str
deriving DecidableEq

/-- Increasing list of the positions at which `needle` occurs in the
string. -/
def subPositions (needle : Str) : Str → List Nat
  | [] => if List.isPrefixOf needle [] then [0] else []
  | c :: t =>
    (if List.isPrefixOf needle (c :: t) then [0] else []) ++
      (subPositions needle t).map (fun i => i + 1)

/-- The ways the regex fragment `\s*\n` can consume a prefix of `cs`,
ordered the way the backtracking engine tries them: `\s*` is greedy, so the
candidate consuming the most whitespace before its `\n` comes first.  Each
returned value is the remainder after the matched `\n`. -/
def wsNlCandidates (cs : Str) : List Str :=
  ((List.range (cs.takeWhile isJsWs).length).filterMap
    (fun k => if cs.getD k ' ' = '\n' then some (cs.drop (k + 1)) else none)).reverse

/-- The anchored match of
`^Subjective\s*\n([\s\S]*?)\n\nSummary\s*\n([\s\S]*?)\n\nPOC\s*\n([\s\S]*?)$`
against the (already trimmed) string `t`, with the engine's priorities:
greedy `\s*`, lazy groups (shortest first — `subPositions` is increasing),
first overall success wins.  The final lazy group extends to the
end-of-string anchor, so it is the whole remainder. -/
def splitSectionsMatch (t : Str) : Option (Str × Str × Str) :=
  if List.isPrefixOf (S "Subjective") t then
    (wsNlCandidates (t.drop 10)).findSome? (fun r1 =>
      (subPositions (S "\n\nSummary") r1).findSome? (fun i =>
        (wsNlCandidates (r1.drop (i + 9))).findSome? (fun r2 =>
          (subPositions (S "\n\nPOC") r2).findSome? (fun j =>
            (wsNlCandidates (r2.drop (j + 5))).findSome? (fun r3 =>
              some (r1.take i, r2.take j, r3))))))
  else none

/-- `splitSections` from `src/server.js`: trim, match the regex, trim each
captured group, and fail if any group trims to empty. -/
def splitSections (text : Str) : Option Sections :=
  match splitSectionsMatch (trimJs text) with
  | none => none
  | some (g1, g2, g3) =>
    let subjective := trimJs g1
    let summary := trimJs g2
    let poc := trimJs g3
    if subjective = [] ∨ summary = [] ∨ poc = [] then none
    else some ⟨subjective, summary, poc⟩

-- ---------------- Lexical predicates used by the format validator ----------------

def isWordChar (c : Char) : Bool :=
  ('a' ≤ c ∧ c ≤ 'z') ∨ ('A' ≤ c ∧ c ≤ 'Z') ∨ ('0' ≤ c ∧ c ≤ '9') ∨ c = '_'

/-- Whether one of `needles` occurs in `cs` (already lowercased) bounded on
both sides by a JS `\b` word boundary; `prevIsWord` tells whether the
character before `cs` is a word character. -/
def wordBoundedAnyAux (needles : List Str) : Bool → Str → Bool
  | _, [] => false
  | prevIsWord, c :: t =>
    (!prevIsWord &&
      needles.any (fun n =>
        List.isPrefixOf n (c :: t) &&
          !(((c :: t).drop n.length).head?.elim false isWordChar))) ||
    wordBoundedAnyAux needles (isWordChar c) t

/-- `hasBannedThirdPersonRef` from `src/server.js`:
`/\b(the patient|they|their|them|theirs|themselves)\b/i.test(text)`. -/
def hasBannedThirdPersonRef (text : Str) : Bool :=
  wordBoundedAnyAux
    [S "the patient", S "they", S "their", S "them", S "theirs", S "themselves"]
    false (lowerStr text)

/-- `containsArrows` from `src/server.js`. -/
def containsArrows (text : Str) : Bool :=
  text.any (fun c => c = '↑' ∨ c = '↓')

/-- Whether `/^\s*[-*•]\s+/` matches starting from a line start at the head
of `cs`. -/
def bulletAtLineStart (cs : Str) : Bool :=
  match cs.dropWhile isJsWs with
  | c :: rest => (c = '-' ∨ c = '*' ∨ c = '•') ∧ rest.head?.elim false isJsWs
  | [] => false

/-- Whether `/^\s*\d+\.\s+/` matches starting from a line start at the head
of `cs`. -/
def numberingAtLineStart (cs : Str) : Bool :=
  let r := cs.dropWhile isJsWs
  let ds := r.takeWhile Char.isDigit
  (!ds.isEmpty) &&
    (match r.drop ds.length with
     | '.' :: rest => rest.head?.elim false isJsWs
     | _ => false)

/-- Whether `p` holds at some line start of `cs` (position 0 or right after
a newline): the multiline `^` anchor. -/
def anyLineStartAux (p : Str → Bool) : Str → Bool
  | [] => false
  | c :: t => (if c = '\n' then p t else false) || anyLineStartAux p t

def anyLineStart (p : Str → Bool) (cs : Str) : Bool :=
  p cs || anyLineStartAux p cs

/-- `hasBulletsOrNumbering` from `src/server.js`. -/
def hasBulletsOrNumbering (text : Str) : Bool :=
  anyLineStart bulletAtLineStart text || anyLineStart numberingAtLineStart text

/-- `hasBannedGenericSummaryStart` from `src/server.js`. -/
def hasBannedGenericSummaryStart (summary : Str) : Bool :=
  let s := lowerStr (trimJs summary)
  List.isPrefixOf (S "pt demonstrates good engagement") s ||
  List.isPrefixOf (S "pt tolerated treatment well") s ||
  List.isPrefixOf (S "rom showed slight improvement") s ||
  List.isPrefixOf (S "pain levels remained manageable") s

def SUBJECTIVE_STARTERS : List Str :=
  [S "Pt reports", S "Pt states", S "Pt notes", S "Pt c/o", S "Pt c/c of",
   S "Pt verbalizes", S "Pt expresses", S "Pt denies", S "Pt agrees",
   S "Pt confirms"]

/-- `/tolerates?\s+tx\s+well/i.test(s)` matched at the head of the (already
lowercased) string. -/
def toleratesTxWellAt (cs : Str) : Bool :=
  if List.isPrefixOf (S "tolerate") cs then
    let r := cs.drop 8
    let r := if r.head? = some 's' then r.drop 1 else r
    match r with
    | w :: _ =>
      isJsWs w &&
        (let r2 := r.dropWhile isJsWs
         List.isPrefixOf (S "tx") r2 &&
           (match r2.drop 2 with
            | w2 :: _ =>
              isJsWs w2 && List.isPrefixOf (S "well") ((r2.drop 2).dropWhile isJsWs)
            | [] => false))
    | [] => false
  else false

def toleratesTxWellAnyAux : Str → Bool
  | [] => false
  | c :: t => toleratesTxWellAt (c :: t) || toleratesTxWellAnyAux t

/-- `/tolerates?\s+tx\s+well/i.test(s)`. -/
def toleratesTxWellTest (s : Str) : Bool :=
  toleratesTxWellAnyAux (lowerStr s)

-- ---------------- Format validator ----------------

/-- The exact POC line the validator expects (the template string built in
`validateGenerated`). -/
def expectedPoc (pocOpener : Str) (d : Discipline) : Str :=
  match d with
  | Discipline.OT =>
    S "OT POC: " ++ pocOpener ++
      S " TherAct, ADL training, functional training, UE function/coordination, safety/energy conservation, injury prevention to meet goals."
  | Discipline.PT =>
    S "PT POC: " ++ pocOpener ++
      S " TherEx, TherAct, MT, functional training, fall/safety, injury prevention to meet goals."

-- Named reason strings of `validateGenerated` (returned verbatim).

def vrParseFail : Str := S "Could not parse 3 sections (Subjective/Summary/POC) with required spacing."

def vrSubjCount : Str := S "Subjective must be exactly 1 sentence."

def vrSubjStarter : Str := S "Subjective must start with an allowed starter."

def vrSubjTolerates : Str := S "Subjective must not say \"tolerates tx well\"."

def vrSummaryCount : Str := S "Summary must be 5 to 7 sentences."

def vrSummaryArrows : Str := S "Summary must not contain arrows (↑/↓)."

def vrSummaryBullets : Str := S "Summary must not contain bullets or numbering."

def vrSummaryThirdPerson : Str := S "Summary must not contain \"The patient\" or third-person pronouns. Use \"Pt\" only."

def vrSummaryGenericStart : Str := S "Summary starts with a banned generic opener."

def vrSummaryIntro : Str := S "First Summary sentence must start with required intro prefix."

def vrSummaryCloser : Str := S "Summary must end with exact required closing sentence."

def vrSummaryCloserPhrase : Str := S "Summary must end with required closing phrase."

def vrPocOneLine : Str := S "POC must be one line."

/-- `validateGenerated` from `src/server.js`.  `none` is `{ok:true}`;
`some reason` is `{ok:false, reason}` (the POC-mismatch reason embeds the
expected and received lines exactly as the template literal does). -/
def validateGenerated (text introPrefix closerSentence pocOpener : Str)
    (d : Discipline) : Option Str :=
  match splitSections text with
  | none => some vrParseFail
  | some secs =>
    if countSentences secs.subjective ≠ 1 then
      some vrSubjCount
    else if (SUBJECTIVE_STARTERS.any (fun st => List.isPrefixOf st secs.subjective)) = false then
      some vrSubjStarter
    else if toleratesTxWellTest secs.subjective = true then
      some vrSubjTolerates
    else if countSentences secs.summary < 5 ∨ 7 < countSentences secs.summary then
      some vrSummaryCount
    else if containsArrows secs.summary = true then
      some vrSummaryArrows
    else if hasBulletsOrNumbering secs.summary = true then
      some vrSummaryBullets
    else if hasBannedThirdPersonRef secs.summary = true then
      some vrSummaryThirdPerson
    else if hasBannedGenericSummaryStart secs.summary = true then
      some vrSummaryGenericStart
    else if (List.isPrefixOf introPrefix secs.summary) = false then
      some vrSummaryIntro
    -- the source binds `const last = getLastSentence(summary)` once; the
    -- function is pure, so the binding is inlined here
    else if getLastSentence secs.summary ≠ closerSentence then
      some vrSummaryCloser
    else if includesExactClosingPhrase (getLastSentence secs.summary) d = false then
      some vrSummaryCloserPhrase
      else if isSingleLine secs.poc = false then
        some vrPocOneLine
      else if secs.poc ≠ expectedPoc pocOpener d then
        some (S "POC must match exact template.\nExpected: " ++ expectedPoc pocOpener d ++
          S "\nGot: " ++ secs.poc)
      else none

-- ---------------- PT visit topic detection ----------------

structure TopicFlags where
  neckTopic : Bool
  lbpTopic : Bool
  shoulderTopic : Bool
  kneeTopic : Bool
  mentionsMT : Bool
  mentionsTherAct : Bool
  mentionsCore : Bool
  patellaHypomobile : Bool
  poorPosture : Bool
  gaitImpairment : Bool
deriving DecidableEq

/-- `detectVisitTopicsFromUserText` from `src/server.js`. -/
def detectVisitTopicsFromUserText (userText : Str) : TopicFlags :=
  let all := normalizeSpaces userText
  { neckTopic := includesAny all
      [S "neck pain", S "cervical", S "c-spine", S "c spine", S "suboccip",
       S "upper trap", S "levator"],
    lbpTopic := includesAny all
      [S "lbp", S "low back", S "lowback", S "lumbar", S "l-spine", S "l spine",
       S "radicul", S "sciatica", S "paraspinal", S "ql"],
    shoulderTopic := includesAny all
      [S "shoulder pain", S "rotator cuff", S "rtc", S "impingement", S "gh",
       S "glenohumeral"],
    kneeTopic := includesAny all
      [S "knee pain", S "knee oa", S "tka", S "patella", S "patellar"],
    mentionsMT := includesAny all
      [S " mt ", S "mt,", S "mt.", S "manual therapy", S "manual tx", S "stm",
       S "soft tissue", S "iastm"],
    mentionsTherAct := includesAny all
      [S "theract", S "ther-act", S "ther act", S "functional training",
       S "functional task", S "sit-to-stand", S "sit to stand", S "sts",
       S "transfer", S "transfers", S "lifting", S "carry"],
    mentionsCore := includesAny all
      [S "core", S "abdominal", S "abd", S "trunk stability", S "stabilizer",
       S "stabilizers"],
    patellaHypomobile := includesAny all
      [S "patella hypomobile", S "patellar hypomobile", S "hypomobile patella",
       S "patellar mobility limited"],
    poorPosture := includesAny all
      [S "poor posture", S "forward head", S "forward head lean",
       S "rounded shoulders", S "kyphosis", S "scapular protraction"],
    gaitImpairment := includesAny all
      [S "abnormal gait", S "impaired gait", S "trendelenburg", S "antalgic",
       S "shuffling", S "decreased stride", S "decreased step",
       S "gait deviation"] }

-- ---------------- PT constraint compiler ----------------

def neckDirective : Str :=
  S "If neck/cervical topic: include STM to release suboccipitals, posterior cervical musculature, UT, and levator scap; include manual stretching emphasizing SCM release/stretch, pec minor stretch, lat stretch, and UT/levator scap stretch; MUST name those muscles (no 'neck muscles')."

def lbpDirective : Str :=
  S "If LBP/lumbar topic: include STM to release lumbar paraspinals, QL, multifidi, glute med, TFL, and piriformis; include manual stretching to HS, glute med, TFL, and piriformis; MUST name those muscles (no 'back muscles')."

def lbpTherActDirective : Str :=
  S "If LBP and TherAct mentioned: include TherAct functional training (e.g., sit-to-stand mechanics, transfer training, hip hinge/lifting mechanics, functional mobility tasks) consistent with user instruction, without adding devices or assist levels."

def coreDirective : Str :=
  S "If core/abdominal mentioned: include core and abd stabilizers addressed via core activation techniques and TherEx targeting trunk stabilization."

def shoulderDirective : Str :=
  S "If shoulder topic: MUST name supraspinatus, deltoid, infraspinatus, teres minor, teres major, and lats; if MT/STM is referenced, phrase as STM/MT to release those specific tissues (no 'shoulder region')."

def kneeDirective : Str :=
  S "If knee topic and MT/STM referenced: MUST name IT band, distal quads, popliteus, distal medial/lateral HS, and proximal medial gastroc (no 'knee muscles')."

def patellaDirective : Str :=
  S "If patella hypomobile mentioned: include patellar joint mobilization using GPM III-IV in all directions to improve mobility and decrease pain."

def postureDirective : Str :=
  S "If poor posture/forward head mentioned: include postural training for awareness, upper back/T-spine strengthening, and pec minor stretching."

def gaitDirective : Str :=
  S "If gait impairment/Trendelenburg mentioned: include gait training and education to reduce deviations and improve mechanics with increased step/stride length and improved reciprocal movement (as appropriate)."

def mtDirective : Str :=
  S "If MT/STM is mentioned anywhere: avoid generic phrases like 'address muscle tension'; name the specific tissues relevant to the region."

/-- The `constraints` array built by
`buildPTVisitSummaryMuscleConstraints` in `src/server.js`, in push order. -/
def ptVisitSummaryMuscleConstraintList (userText : Str) : List Str :=
  let t := detectVisitTopicsFromUserText userText
  (if t.neckTopic then [neckDirective] else []) ++
  (if t.lbpTopic then
    [lbpDirective] ++ (if t.mentionsTherAct then [lbpTherActDirective] else [])
   else []) ++
  (if t.mentionsCore then [coreDirective] else []) ++
  (if t.shoulderTopic then [shoulderDirective] else []) ++
  (if t.kneeTopic then
    [kneeDirective] ++ (if t.patellaHypomobile then [patellaDirective] else [])
   else []) ++
  (if t.poorPosture then [postureDirective] else []) ++
  (if t.gaitImpairment then [gaitDirective] else []) ++
  (if t.mentionsMT then [mtDirective] else [])

/-- `buildPTVisitSummaryMuscleConstraints` from `src/server.js`: the joined
`constraintsText` plus the detected topics. -/
def buildPTVisitSummaryMuscleConstraints (userText : Str) : Str × TopicFlags :=
  (List.intercalate (S "\n  ") (ptVisitSummaryMuscleConstraintList userText),
   detectVisitTopicsFromUserText userText)

-- ---------------- PT content validator ----------------

/-- `/GPM\s*III-?IV/i.test(s)` matched at the head of the (already
lowercased) string. -/
def gpmAt (cs : Str) : Bool :=
  if List.isPrefixOf (S "gpm") cs then
    let r := (cs.drop 3).dropWhile isJsWs
    List.isPrefixOf (S "iii-iv") r || List.isPrefixOf (S "iiiiv") r
  else false

def gpmAnyAux : Str → Bool
  | [] => false
  | c :: t => gpmAt (c :: t) || gpmAnyAux t

/-- `/GPM\s*III-?IV/i.test(s)`. -/
def gpmTest (s : Str) : Bool := gpmAnyAux (lowerStr s)

-- Named reason strings of `validatePTVisitSummaryMuscleSpecificity`.

def mrShoulder : Str := S "PT visit summary: shoulder topic requires explicit muscles (supraspinatus, deltoid, infraspinatus, teres minor/major, lats)."

def mrNeck : Str := S "PT visit summary: neck topic requires explicit muscles (suboccipitals, posterior cervical, UT, levator scap, SCM, pec minor, lats)."

def mrLbp : Str := S "PT visit summary: LBP topic requires explicit muscles (lumbar paraspinals, QL, multifidi, glute med, TFL, piriformis, HS)."

def mrKneeMT : Str := S "PT visit summary: knee + MT topic requires explicit tissues (ITB, distal quads, popliteus, distal HS, proximal medial gastroc)."

def mrPatella : Str := S "PT visit summary: patella hypomobile requires GPM III-IV patellar mobs in all directions."

def mrCore : Str := S "PT visit summary: core/abdominal mention requires core activation / abd stabilizer training."

def mrLbpTherAct : Str := S "PT visit summary: LBP + TherAct requires TherAct functional training detail (STS/transfers/hip hinge/lifting mechanics/etc.)."

def mrPosture : Str := S "PT visit summary: posture topic requires postural training + T-spine/upper back strengthening + pec minor stretching."

def mrGait : Str := S "PT visit summary: gait impairment requires gait training/education emphasizing step/stride length and reciprocal pattern."

/-- `validatePTVisitSummaryMuscleSpecificity` from `src/server.js`.
`none` is `{ok:true}`; `some reason` is the first failing rule's reason. -/
def validatePTVisitSummaryMuscleSpecificity (summary userText : Str) : Option Str :=
  let t := detectVisitTopicsFromUserText userText
  if t.shoulderTopic = true ∧
      mustIncludeAny summary
        [S "supraspinatus", S "deltoid", S "infraspinatus", S "teres minor",
         S "teres major", S "lat"] = false then
    some mrShoulder
  else if t.neckTopic = true ∧
      mustIncludeAny summary
        [S "suboccip", S "posterior cervical", S "upper trap", S "levator",
         S "scm", S "pec minor", S "lat"] = false then
    some mrNeck
  else if t.lbpTopic = true ∧
      mustIncludeAny summary
        [S "paraspinal", S "ql", S "multif", S "glute med", S "tfl",
         S "piriformis", S "hamstring"] = false then
    some mrLbp
  else if t.kneeTopic = true ∧ t.mentionsMT = true ∧
      mustIncludeAny summary
        [S "it band", S "distal quad", S "popliteus", S "hamstring",
         S "gastroc"] = false then
    some mrKneeMT
  else if t.patellaHypomobile = true ∧ gpmTest summary = false then
    some mrPatella
  else if t.mentionsCore = true ∧
      includesAny summary
        [S "core activation", S "abd stabil", S "trunk stabil",
         S "core stabil"] = false then
    some mrCore
  else if t.lbpTopic = true ∧ t.mentionsTherAct = true ∧
      includesAny summary
        [S "sit-to-stand", S "sit to stand", S "transfer", S "hip hinge",
         S "lifting mechanics", S "functional training"] = false then
    some mrLbpTherAct
  else if t.poorPosture = true ∧
      includesAny summary
        [S "postural", S "t-spine", S "upper back", S "pec minor"] = false then
    some mrPosture
  else if t.gaitImpairment = true ∧
      includesAny summary
        [S "gait training", S "stride", S "step length", S "reciprocal"] = false then
    some mrGait
  else none

-- ---------------- The POST /generate handler ----------------

-- Named response strings of the /generate handler.

def errUserTextRequired : Str := S "userText is required."

def errFailedAfterRepair : Str := S "Model output failed validation after repair."

def errMuscleRepairBrokeFormat : Str := S "Muscle enforcement repair broke formatting constraints."

def mrParseAfterRepair : Str := S "Could not parse summary after repair."

/-- The observable HTTP outcome of `app.post("/generate")` on the
non-throwing path: `badRequest` is the 400 response, `unprocessable` a 422
response (its diagnostic reasons in order, and the raw text echoed back),
`ok` the 200 response `{summary, debug?}` where `debug` is the optional
`(muscleRuleFail, muscleRuleStillFail)` pair. -/
inductive GenResult where
  | badRequest (error : Str)
  | unprocessable (error : Str) (reasons : List Str) (raw : Str)
  | ok (summary : Str) (debug : Option (Str × Str))
deriving DecidableEq

def GenResult.isOk : GenResult → Bool
  | GenResult.ok _ _ => true
  | _ => false

def GenResult.is422 : GenResult → Bool
  | GenResult.unprocessable _ _ _ => true
  | _ => false

/-- Everything one request run produces: the HTTP result, the number of
`openai.chat.completions.create` calls made, the number of
`pickForPatient` calls made, the number of
`validatePTVisitSummaryMuscleSpecificity` calls made, the resolved
discipline, the three rotation picks of the request, and the rotation
memory after the run. -/
structure GenOutcome where
  result : GenResult
  oracleCalls : Nat
  pickCalls : Nat
  muscleChecks : Nat
  discipline : Discipline
  introPrefix : Str
  closerSentence : Str
  pocOpener : Str
  mem : Mem

/-- `normalizeNewlines(repair2.choices?.[0]?.message?.content || out)`:
the content-repair output, falling back to the previous text when the
completion is empty (falsy). -/
def contentRepairOut (out : Str) (calls : Nat) (oracle : Nat → Str) : Str :=
  normalizeNewlines (if oracle calls = [] then out else oracle calls)

/-- Lines 921–984 of `src/server.js`: the PT muscle-enforcement block run
on a format-validated note `out`.  `calls` is the number of oracle calls
already made; `oracle calls` is the response to the content-repair call
when one is made.  Returns the HTTP result, the total oracle calls, and
the number of content-validator invocations. -/
def contentStage (userText introPrefix closerSentence pocOpener : Str)
    (out : Str) (calls : Nat) (oracle : Nat → Str) : GenResult × Nat × Nat :=
  match splitSections out with
  | none => (GenResult.ok out none, calls, 0)
  | some secs =>
    match validatePTVisitSummaryMuscleSpecificity secs.summary userText with
    | none => (GenResult.ok out none, calls, 1)
    | some rMuscle =>
      match validateGenerated (contentRepairOut out calls oracle) introPrefix
          closerSentence pocOpener Discipline.PT with
      | some rFmt =>
        (GenResult.unprocessable errMuscleRepairBrokeFormat [rFmt]
          (contentRepairOut out calls oracle), calls + 1, 1)
      | none =>
        match splitSections (contentRepairOut out calls oracle) with
        | none =>
          (GenResult.ok (contentRepairOut out calls oracle)
            (some (rMuscle, mrParseAfterRepair)), calls + 1, 1)
        | some secs2 =>
          match validatePTVisitSummaryMuscleSpecificity secs2.summary userText with
          | some rMuscle2 =>
            (GenResult.ok (contentRepairOut out calls oracle)
              (some (rMuscle, rMuscle2)), calls + 1, 2)
          | none => (GenResult.ok (contentRepairOut out calls oracle) none, calls + 1, 2)

/-- The debug payload of the 200 response in the muscle-enforcement
block (lines 964–981 of `src/server.js`): re-parse the repaired text,
re-check the muscles, and report `(muscleRuleFail, muscleRuleStillFail)`
on residual failure, `none` when content now passes. -/
def muscleDebug (u out2 rM : Str) : Option (Str × Str) :=
  match splitSections out2 with
  | none => some (rM, mrParseAfterRepair)
  | some secs2 =>
    match validatePTVisitSummaryMuscleSpecificity secs2.summary u with
    | some rM2 => some (rM, rM2)
    | none => none

/-- The tail of the handler after the format stage produced a
format-validated `out` (`calls` oracle calls so far): OT publishes as-is,
PT runs the muscle-enforcement block. -/
def afterFormat (userText introPrefix closerSentence pocOpener : Str)
    (d : Discipline) (out : Str) (calls : Nat) (oracle : Nat → Str)
    (mem : Mem) : GenOutcome :=
  match d with
  | Discipline.OT =>
    { result := GenResult.ok out none, oracleCalls := calls, pickCalls := 3,
      muscleChecks := 0, discipline := d, introPrefix := introPrefix,
      closerSentence := closerSentence, pocOpener := pocOpener, mem := mem }
  | Discipline.PT =>
    let r := contentStage userText introPrefix closerSentence pocOpener out calls oracle
    { result := r.1, oracleCalls := r.2.1, pickCalls := 3,
      muscleChecks := r.2.2, discipline := d, introPrefix := introPrefix,
      closerSentence := closerSentence, pocOpener := pocOpener, mem := mem }

/-- Line 855 of `src/server.js`:
`String(req.body?.patientLabel || "Patient #1").trim() || "Patient #1"`. -/
def resolvePatientLabel (patientLabelRaw : Str) : Str :=
  let p0 := trimJs (if patientLabelRaw = [] then S "Patient #1" else patientLabelRaw)
  if p0 = [] then S "Patient #1" else p0

/-- Lines 859–860 of `src/server.js`:
`String(req.body?.discipline || "PT").toUpperCase().trim()`, then `"OT"`
maps to OT and everything else to PT. -/
def resolveDiscipline (disciplineRaw : Str) : Discipline :=
  let ds := trimJs (upperStr (if disciplineRaw = [] then S "PT" else disciplineRaw))
  if ds = S "OT" then Discipline.OT else Discipline.PT

/-- Lines 862–864 of `src/server.js`: the three rotation picks of a
request, threading `patientMemory`.  Returns
`((introPrefix, closerSentence, pocOpener), memory after)`. -/
def genPicks (patientLabelRaw disciplineRaw : Str) (rand : Nat → Nat)
    (mem0 : Mem) : (Str × Str × Str) × Mem :=
  let patientLabel := resolvePatientLabel patientLabelRaw
  let d := resolveDiscipline disciplineRaw
  let p1 := pickIntroPrefix mem0 (rand 0) patientLabel
  let p2 := pickCloserForDiscipline p1.2 (rand 1) patientLabel d
  let p3 := pickPocOpenerForDiscipline p2.2 (rand 2) patientLabel d
  ((p1.1, p2.1, p3.1), p3.2)

/-- `app.post("/generate")` from `src/server.js` (lines 853–991) on the
non-throwing path.  The request body's three fields arrive as strings with
`[]` standing for an absent/empty (falsy) field; `oracle n` is the
completion text of the n-th `openai.chat.completions.create` call
(`completion.choices?.[0]?.message?.content || ""` — an empty completion is
`[]`); `rand k` models the `Math.random()` draw of the k-th rotation pick
when its key is untouched; `mem0` is the `patientMemory` state at entry. -/
def generate (patientLabelRaw userTextRaw disciplineRaw : Str)
    (oracle : Nat → Str) (rand : Nat → Nat) (mem0 : Mem) : GenOutcome :=
  let userText := normalizeSpaces userTextRaw
  if trimJs userText = [] then
    { result := GenResult.badRequest errUserTextRequired,
      oracleCalls := 0, pickCalls := 0, muscleChecks := 0,
      discipline := Discipline.PT, introPrefix := [], closerSentence := [],
      pocOpener := [], mem := mem0 }
  else
    let d := resolveDiscipline disciplineRaw
    let picks := genPicks patientLabelRaw disciplineRaw rand mem0
    let introPrefix := picks.1.1
    let closerSentence := picks.1.2.1
    let pocOpener := picks.1.2.2
    let out0 := normalizeNewlines (oracle 0)
    match validateGenerated out0 introPrefix closerSentence pocOpener d with
    | none => afterFormat userText introPrefix closerSentence pocOpener d out0 1 oracle picks.2
    | some r1 =>
      let out1 := normalizeNewlines (oracle 1)
      match validateGenerated out1 introPrefix closerSentence pocOpener d with
      | none => afterFormat userText introPrefix closerSentence pocOpener d out1 2 oracle picks.2
      | some r2 =>
        { result := GenResult.unprocessable
            errFailedAfterRepair [r1, r2] out1,
          oracleCalls := 2, pickCalls := 3, muscleChecks := 0, discipline := d,
          introPrefix := introPrefix, closerSentence := closerSentence,
          pocOpener := pocOpener, mem := picks.2 }

-- ---------------- Concrete fixtures used by witnesses and counterexamples ----------------

/-- With a fresh memory and `rand = 0` every request picks index 0 of each
pool. -/
def randZero : Nat → Nat := fun _ => 0

def introPick0 : Str := S "Today, pt "

def closerPickPT0 : Str :=
  S "Continued skilled PT remains indicated to progress POC and support functional carryover to ADLs."

def closerPickOT0 : Str :=
  S "Continued skilled OT remains indicated to progress POC and support functional carryover to ADLs."

def pocPick0 : Str := S "Continue to focus on"

/-- A note that satisfies every format rule for the index-0 PT picks, whose
user text (`userTextBalance`) sets no topic flag. -/
def noteBalance : Str :=
  S "Subjective\nPt reports feeling steadier today.\n\nSummary\nToday, pt works on balance drills. Pt practices weight shifts. Pt shows steadier stance. Pt reports less difficulty. Continued skilled PT remains indicated to progress POC and support functional carryover to ADLs.\n\nPOC\nPT POC: Continue to focus on TherEx, TherAct, MT, functional training, fall/safety, injury prevention to meet goals."

def userTextBalance : Str := S "Pt working on balance."

/-- A note that satisfies every format rule for the index-0 PT picks but
whose Summary names none of the shoulder muscles, used with the
shoulder-topic user text `userTextShoulder`. -/
def noteShoulder : Str :=
  S "Subjective\nPt reports shoulder pain today.\n\nSummary\nToday, pt works on arm tasks. Pt practices reaching drills. Pt shows improved reach height. Pt reports less soreness. Continued skilled PT remains indicated to progress POC and support functional carryover to ADLs.\n\nPOC\nPT POC: Continue to focus on TherEx, TherAct, MT, functional training, fall/safety, injury prevention to meet goals."

def userTextShoulder : Str := S "Pt has shoulder pain."

/-- A note that satisfies every format rule for the index-0 OT picks. -/
def noteOT : Str :=
  S "Subjective\nPt reports feeling steadier today.\n\nSummary\nToday, pt works on dressing tasks. Pt practices buttoning drills. Pt shows steadier grasp. Pt reports less difficulty. Continued skilled OT remains indicated to progress POC and support functional carryover to ADLs.\n\nPOC\nOT POC: Continue to focus on TherAct, ADL training, functional training, UE function/coordination, safety/energy conservation, injury prevention to meet goals."

/-- Oracle whose first response is already valid for the PT happy path. -/
def oracleBalance : Nat → Str := fun _ => noteBalance

/-- Oracle whose draft passes format validation but misses the shoulder
muscles, and whose content-repair response is unparseable garbage. -/
def oracleShoulderBad : Nat → Str := fun n => if n = 0 then noteShoulder else S "x"

/-- Oracle whose draft and content-repair response both pass format
validation while still missing the shoulder muscles. -/
def oracleShoulderSame : Nat → Str := fun _ => noteShoulder

/-- Oracle whose draft is unparseable garbage, whose format-repair output
is the format-valid shoulder note still missing the muscles, and whose
content-repair response is that same format-valid note (still missing the
muscles). -/
def oracleShoulderMixed : Nat → Str := fun n => if n = 0 then S "y" else noteShoulder

/-- Oracle whose first response is already valid for the OT happy path. -/
def oracleOT : Nat → Str := fun _ => noteOT

/-- The sections of `noteShoulder` as `splitSections` returns them. -/
def secsShoulder : Sections :=
  ⟨S "Pt reports shoulder pain today.",
   S "Today, pt works on arm tasks. Pt practices reaching drills. Pt shows improved reach height. Pt reports less soreness. Continued skilled PT remains indicated to progress POC and support functional carryover to ADLs.",
   S "PT POC: Continue to focus on TherEx, TherAct, MT, functional training, fall/safety, injury prevention to meet goals."⟩

-- ---------------- Theorems ----------------

theorem hasSub_eq_true_iff (h n : Str) : hasSub h n = true ↔ n <:+: h := by
  induction h with
  | nil =>
    simp [hasSub, List.isPrefixOf_iff_prefix]
  | cons c t ih =>
    simp [hasSub, List.isPrefixOf_iff_prefix, ih, List.infix_cons_iff]

theorem hasSub_of_infix_of_hasSub {h n m : Str}
    (hmn : m <:+: n) (hh : hasSub h n = true) : hasSub h m = true := by
  rw [hasSub_eq_true_iff] at hh ⊢
  exact hmn.trans hh

-- ---------------- C2 ----------------

/-- C2: whenever `validateGenerated` answers `{ok:true}`, `splitSections`
succeeds on the text (three non-empty sections) and every per-rule
predicate of the Format Validator holds simultaneously: the Subjective is
exactly one sentence, starts with an allowed starter and does not match
"tolerates tx well"; the Summary is 5–7 sentences, has no arrows, no
bullets or numbering, no "the patient"/third-person pronouns, no banned
generic opener, starts with the exact intro prefix, and its last sentence
equals the exact closing sentence and contains the discipline closing
substring; the POC is a single line equal character-for-character to the
expected discipline template. -/
theorem validateGenerated_ok_implies_rules
    (text introPrefix closerSentence pocOpener : Str) (d : Discipline)
    (h : validateGenerated text introPrefix closerSentence pocOpener d = none) :
    ∃ secs : Sections, splitSections text = some secs ∧
      countSentences secs.subjective = 1 ∧
      (SUBJECTIVE_STARTERS.any fun st => List.isPrefixOf st secs.subjective) = true ∧
      toleratesTxWellTest secs.subjective = false ∧
      5 ≤ countSentences secs.summary ∧ countSentences secs.summary ≤ 7 ∧
      containsArrows secs.summary = false ∧
      hasBulletsOrNumbering secs.summary = false ∧
      hasBannedThirdPersonRef secs.summary = false ∧
      hasBannedGenericSummaryStart secs.summary = false ∧
      List.isPrefixOf introPrefix secs.summary = true ∧
      getLastSentence secs.summary = closerSentence ∧
      includesExactClosingPhrase (getLastSentence secs.summary) d = true ∧
      isSingleLine secs.poc = true ∧
      secs.poc = expectedPoc pocOpener d := by
  unfold validateGenerated at h
  split at h
  next => exact absurd h (Option.some_ne_none _)
  next secs hs =>
    refine ⟨secs, hs, ?_⟩
    by_cases h1 : countSentences secs.subjective ≠ 1
    · rw [if_pos h1] at h; exact absurd h (Option.some_ne_none _)
    rw [if_neg h1] at h
    by_cases h2 : (SUBJECTIVE_STARTERS.any fun st => List.isPrefixOf st secs.subjective) = false
    · rw [if_pos h2] at h; exact absurd h (Option.some_ne_none _)
    rw [if_neg h2] at h
    by_cases h3 : toleratesTxWellTest secs.subjective = true
    · rw [if_pos h3] at h; exact absurd h (Option.some_ne_none _)
    rw [if_neg h3] at h
    by_cases h4 : countSentences secs.summary < 5 ∨ 7 < countSentences secs.summary
    · rw [if_pos h4] at h; exact absurd h (Option.some_ne_none _)
    rw [if_neg h4] at h
    by_cases h5 : containsArrows secs.summary = true
    · rw [if_pos h5] at h; exact absurd h (Option.some_ne_none _)
    rw [if_neg h5] at h
    by_cases h6 : hasBulletsOrNumbering secs.summary = true
    · rw [if_pos h6] at h; exact absurd h (Option.some_ne_none _)
    rw [if_neg h6] at h
    by_cases h7 : hasBannedThirdPersonRef secs.summary = true
    · rw [if_pos h7] at h; exact absurd h (Option.some_ne_none _)
    rw [if_neg h7] at h
    by_cases h8 : hasBannedGenericSummaryStart secs.summary = true
    · rw [if_pos h8] at h; exact absurd h (Option.some_ne_none _)
    rw [if_neg h8] at h
    by_cases h9 : List.isPrefixOf introPrefix secs.summary = false
    · rw [if_pos h9] at h; exact absurd h (Option.some_ne_none _)
    rw [if_neg h9] at h
    by_cases h10 : getLastSentence secs.summary ≠ closerSentence
    · rw [if_pos h10] at h; exact absurd h (Option.some_ne_none _)
    rw [if_neg h10] at h
    by_cases h11 : includesExactClosingPhrase (getLastSentence secs.summary) d = false
    · rw [if_pos h11] at h; exact absurd h (Option.some_ne_none _)
    rw [if_neg h11] at h
    by_cases h12 : isSingleLine secs.poc = false
    · rw [if_pos h12] at h; exact absurd h (Option.some_ne_none _)
    rw [if_neg h12] at h
    by_cases h13 : secs.poc ≠ expectedPoc pocOpener d
    · rw [if_pos h13] at h; exact absurd h (Option.some_ne_none _)
    rw [if_neg h13] at h
    push_neg at h4
    exact ⟨not_not.mp h1, by simpa using h2, by simpa using h3, by omega, by omega,
      by simpa using h5, by simpa using h6, by simpa using h7, by simpa using h8,
      by simpa using h9, not_not.mp h10, by simpa using h11, by simpa using h12,
      not_not.mp h13⟩

set_option maxRecDepth 400000 in
/-- Witness for C2: instantiated on the fixture note `noteBalance` with the
index-0 PT picks, whose format validation succeeds. -/
theorem validateGenerated_ok_implies_rules_witness :
    ∃ secs : Sections, splitSections noteBalance = some secs ∧
      countSentences secs.subjective = 1 ∧
      (SUBJECTIVE_STARTERS.any fun st => List.isPrefixOf st secs.subjective) = true ∧
      toleratesTxWellTest secs.subjective = false ∧
      5 ≤ countSentences secs.summary ∧ countSentences secs.summary ≤ 7 ∧
      containsArrows secs.summary = false ∧
      hasBulletsOrNumbering secs.summary = false ∧
      hasBannedThirdPersonRef secs.summary = false ∧
      hasBannedGenericSummaryStart secs.summary = false ∧
      List.isPrefixOf introPick0 secs.summary = true ∧
      getLastSentence secs.summary = closerPickPT0 ∧
      includesExactClosingPhrase (getLastSentence secs.summary) Discipline.PT = true ∧
      isSingleLine secs.poc = true ∧
      secs.poc = expectedPoc pocPick0 Discipline.PT :=
  validateGenerated_ok_implies_rules noteBalance introPick0 closerPickPT0 pocPick0
    Discipline.PT rfl

-- ---------------- C8 ----------------

/-- C8: when the patellaHypomobile topic flag is detected, the Content
Validator answers `{ok:true}` only if the summary matches the token
pattern `GPM III-IV` case-insensitively with optional whitespace after
`GPM` and an optional hyphen, whatever the other flags are; and a summary
carrying only the Arabic-numeral form `GPM 3-4` fails the check. -/
theorem muscle_ok_patella_requires_gpm :
    (∀ summary userText : Str,
      (detectVisitTopicsFromUserText userText).patellaHypomobile = true →
      validatePTVisitSummaryMuscleSpecificity summary userText = none →
      gpmTest summary = true) ∧
    validatePTVisitSummaryMuscleSpecificity
      (S "Pt benefits from GPM 3-4 patellar mobs in all directions.")
      (S "patella hypomobile") = some mrPatella := by
  constructor
  · intro summary userText hflag hok
    simp only [validatePTVisitSummaryMuscleSpecificity] at hok
    split at hok
    · exact absurd hok (Option.some_ne_none _)
    split at hok
    · exact absurd hok (Option.some_ne_none _)
    split at hok
    · exact absurd hok (Option.some_ne_none _)
    split at hok
    · exact absurd hok (Option.some_ne_none _)
    split at hok
    · exact absurd hok (Option.some_ne_none _)
    rename_i hc5
    push_neg at hc5
    simpa using hc5 hflag
  · rfl

set_option maxRecDepth 400000 in
/-- Witness for C8: a patella-hypomobile user text whose summary carries
the literal `GPM III-IV` passes the Content Validator, so the theorem
yields that the summary matches the pattern. -/
theorem muscle_ok_patella_requires_gpm_witness :
    gpmTest (S "Pt benefits from GPM III-IV patellar mobs in all directions.") = true :=
  muscle_ok_patella_requires_gpm.1
    (S "Pt benefits from GPM III-IV patellar mobs in all directions.")
    (S "patella hypomobile") rfl rfl

-- ---------------- C10 ----------------

/-- C10: whenever the Topic Detector sets `patellaHypomobile` it also sets
`kneeTopic`, because every patella-hypomobile trigger phrase contains the
substring "patella", itself a kneeTopic keyword; consequently the
GPM III-IV repair directive, emitted only inside the knee branch of the
constraint compiler, is in the compiled constraint list whenever the flag
is set. -/
theorem patella_implies_knee_and_gpm_directive (u : Str)
    (h : (detectVisitTopicsFromUserText u).patellaHypomobile = true) :
    (detectVisitTopicsFromUserText u).kneeTopic = true ∧
    patellaDirective ∈ ptVisitSummaryMuscleConstraintList u := by
  have hknee : (detectVisitTopicsFromUserText u).kneeTopic = true := by
    have hp := h
    simp only [detectVisitTopicsFromUserText] at hp ⊢
    rw [includesAny, List.any_eq_true] at hp
    obtain ⟨n, hn, hcont⟩ := hp
    rw [containsCI] at hcont
    have hpat : hasSub (lowerStr (normalizeSpaces u)) (S "patella") = true := by
      fin_cases hn <;>
        exact hasSub_of_infix_of_hasSub ((hasSub_eq_true_iff _ _).mp (by decide)) hcont
    rw [includesAny, List.any_eq_true]
    refine ⟨S "patella", by simp, ?_⟩
    rw [containsCI, show lowerStr (S "patella") = S "patella" by decide]
    exact hpat
  refine ⟨hknee, ?_⟩
  simp only [ptVisitSummaryMuscleConstraintList, hknee, h, if_true]
  simp [List.mem_append]

set_option maxRecDepth 400000 in
/-- Witness for C10: the user text "patella hypomobile" sets the flag, so
the knee flag is set and the GPM directive is compiled. -/
theorem patella_implies_knee_and_gpm_directive_witness :
    (detectVisitTopicsFromUserText (S "patella hypomobile")).kneeTopic = true ∧
    patellaDirective ∈ ptVisitSummaryMuscleConstraintList (S "patella hypomobile") :=
  patella_implies_knee_and_gpm_directive (S "patella hypomobile") rfl

-- ---------------- Helper lemmas about the handler stages ----------------

@[simp] theorem afterFormat_introPrefix (u i c p : Str) (d : Discipline)
    (out : Str) (calls : Nat) (oracle : Nat → Str) (mem : Mem) :
    (afterFormat u i c p d out calls oracle mem).introPrefix = i := by
  cases d <;> rfl

@[simp] theorem afterFormat_closerSentence (u i c p : Str) (d : Discipline)
    (out : Str) (calls : Nat) (oracle : Nat → Str) (mem : Mem) :
    (afterFormat u i c p d out calls oracle mem).closerSentence = c := by
  cases d <;> rfl

@[simp] theorem afterFormat_pocOpener (u i c p : Str) (d : Discipline)
    (out : Str) (calls : Nat) (oracle : Nat → Str) (mem : Mem) :
    (afterFormat u i c p d out calls oracle mem).pocOpener = p := by
  cases d <;> rfl

@[simp] theorem afterFormat_discipline (u i c p : Str) (d : Discipline)
    (out : Str) (calls : Nat) (oracle : Nat → Str) (mem : Mem) :
    (afterFormat u i c p d out calls oracle mem).discipline = d := by
  cases d <;> rfl

@[simp] theorem afterFormat_pickCalls (u i c p : Str) (d : Discipline)
    (out : Str) (calls : Nat) (oracle : Nat → Str) (mem : Mem) :
    (afterFormat u i c p d out calls oracle mem).pickCalls = 3 := by
  cases d <;> rfl

/-- Whatever the muscle-enforcement block publishes with a 200 passed the
Format Validator: either it is `out` itself (hypothesis) or the repaired
text that was re-validated in the block. -/
theorem contentStage_ok_valid (u i c p out : Str) (calls : Nat)
    (oracle : Nat → Str) (s : Str) (dbg : Option (Str × Str))
    (hout : validateGenerated out i c p Discipline.PT = none)
    (h : (contentStage u i c p out calls oracle).1 = GenResult.ok s dbg) :
    validateGenerated s i c p Discipline.PT = none := by
  unfold contentStage at h
  cases hsec : splitSections out with
  | none =>
    simp only [hsec, GenResult.ok.injEq] at h
    exact h.1 ▸ hout
  | some secs =>
    simp only [hsec] at h
    cases hm : validatePTVisitSummaryMuscleSpecificity secs.summary u with
    | none =>
      simp only [hm, GenResult.ok.injEq] at h
      exact h.1 ▸ hout
    | some rM =>
      simp only [hm] at h
      cases hf : validateGenerated (contentRepairOut out calls oracle) i c p
          Discipline.PT with
      | some rF => simp only [hf] at h; simp at h
      | none =>
        simp only [hf] at h
        cases hsec2 : splitSections (contentRepairOut out calls oracle) with
        | none =>
          simp only [hsec2, GenResult.ok.injEq] at h
          exact h.1 ▸ hf
        | some secs2 =>
          simp only [hsec2] at h
          cases hm2 : validatePTVisitSummaryMuscleSpecificity secs2.summary u with
          | none =>
            simp only [hm2, GenResult.ok.injEq] at h
            exact h.1 ▸ hf
          | some rM2 =>
            simp only [hm2, GenResult.ok.injEq] at h
            exact h.1 ▸ hf

/-- The muscle-enforcement block makes at most one extra oracle call. -/
theorem contentStage_calls_le (u i c p out : Str) (calls : Nat)
    (oracle : Nat → Str) :
    (contentStage u i c p out calls oracle).2.1 ≤ calls + 1 := by
  unfold contentStage
  repeat' split
  all_goals first
    | exact Nat.le_succ _
    | exact Nat.le_refl _

/-- When the muscle-enforcement block answers 422: the sections of `out`
parsed, the muscle check on its Summary failed, the content-repair output
failed the Format Validator, and that output is the raw text echoed
back. -/
theorem contentStage_unprocessable_spec (u i c p out : Str) (calls : Nat)
    (oracle : Nat → Str) (e : Str) (rs : List Str) (raw : Str)
    (h : (contentStage u i c p out calls oracle).1 =
      GenResult.unprocessable e rs raw) :
    ∃ secs rM,
      splitSections out = some secs ∧
      validatePTVisitSummaryMuscleSpecificity secs.summary u = some rM ∧
      validateGenerated (contentRepairOut out calls oracle) i c p
        Discipline.PT ≠ none ∧
      raw = contentRepairOut out calls oracle := by
  unfold contentStage at h
  cases hsec : splitSections out with
  | none => simp only [hsec] at h; simp at h
  | some secs =>
    simp only [hsec] at h
    cases hm : validatePTVisitSummaryMuscleSpecificity secs.summary u with
    | none => simp only [hm] at h; simp at h
    | some rM =>
      simp only [hm] at h
      cases hf : validateGenerated (contentRepairOut out calls oracle) i c p
          Discipline.PT with
      | some rF =>
        simp only [hf] at h
        simp only [GenResult.unprocessable.injEq] at h
        exact ⟨secs, rM, rfl, hm, by simp, h.2.2.symm⟩
      | none =>
        simp only [hf] at h
        cases hsec2 : splitSections (contentRepairOut out calls oracle) with
        | none => simp only [hsec2] at h; simp at h
        | some secs2 =>
          simp only [hsec2] at h
          cases hm2 : validatePTVisitSummaryMuscleSpecificity secs2.summary u with
          | none => simp only [hm2] at h; simp at h
          | some rM2 => simp only [hm2] at h; simp at h

/-- When the sections of `out` parse, its Summary fails the muscle check,
and the content-repair output passes the Format Validator, the
muscle-enforcement block publishes that repaired output, with debug
metadata exactly when the re-checked content still fails. -/
theorem contentStage_residual_publish (u i c p out : Str) (calls : Nat)
    (oracle : Nat → Str) (secs : Sections) (rM : Str)
    (h2 : splitSections out = some secs)
    (h3 : validatePTVisitSummaryMuscleSpecificity secs.summary u = some rM)
    (h4 : validateGenerated (contentRepairOut out calls oracle) i c p
      Discipline.PT = none) :
    (contentStage u i c p out calls oracle).1 =
      GenResult.ok (contentRepairOut out calls oracle)
        (muscleDebug u (contentRepairOut out calls oracle) rM) := by
  unfold contentStage muscleDebug
  simp only [h2, h3, h4]
  cases hs2 : splitSections (contentRepairOut out calls oracle) with
  | none => simp only [hs2]
  | some secs2 =>
    simp only [hs2]
    cases hm2 : validatePTVisitSummaryMuscleSpecificity secs2.summary u with
    | none => simp only [hm2]
    | some rM2 => simp only [hm2]

/-- Whatever `afterFormat` publishes with a 200 passed the Format
Validator for the same picks and discipline. -/
theorem afterFormat_ok_valid (u i c p : Str) (d : Discipline) (out : Str)
    (calls : Nat) (oracle : Nat → Str) (mem : Mem) (s : Str)
    (dbg : Option (Str × Str))
    (hout : validateGenerated out i c p d = none)
    (h : (afterFormat u i c p d out calls oracle mem).result = GenResult.ok s dbg) :
    validateGenerated s i c p d = none := by
  cases d with
  | OT =>
    unfold afterFormat at h
    simp only [GenResult.ok.injEq] at h
    exact h.1 ▸ hout
  | PT =>
    unfold afterFormat at h
    simp only [] at h
    exact contentStage_ok_valid u i c p out calls oracle s dbg hout h

-- ---------------- C1 ----------------

/-- C1: whenever the /generate handler answers 200, the published note
is text that passed `validateGenerated` with the very intro prefix,
closing sentence, POC opener and discipline picked for that request — no
note reaches the caller without passing the Format Validator. -/
theorem generate_published_passes_format_validator
    (patientLabelRaw userTextRaw disciplineRaw : Str) (oracle : Nat → Str)
    (rand : Nat → Nat) (mem0 : Mem) (s : Str) (dbg : Option (Str × Str))
    (h : (generate patientLabelRaw userTextRaw disciplineRaw oracle rand mem0).result =
      GenResult.ok s dbg) :
    validateGenerated s
      (generate patientLabelRaw userTextRaw disciplineRaw oracle rand mem0).introPrefix
      (generate patientLabelRaw userTextRaw disciplineRaw oracle rand mem0).closerSentence
      (generate patientLabelRaw userTextRaw disciplineRaw oracle rand mem0).pocOpener
      (generate patientLabelRaw userTextRaw disciplineRaw oracle rand mem0).discipline = none := by
  unfold generate at h ⊢
  by_cases h400 : trimJs (normalizeSpaces userTextRaw) = []
  · rw [if_pos h400] at h
    simp at h
  · rw [if_neg h400] at h ⊢
    simp only [] at h ⊢
    cases hv0 : validateGenerated (normalizeNewlines (oracle 0))
        (genPicks patientLabelRaw disciplineRaw rand mem0).1.1
        (genPicks patientLabelRaw disciplineRaw rand mem0).1.2.1
        (genPicks patientLabelRaw disciplineRaw rand mem0).1.2.2
        (resolveDiscipline disciplineRaw) with
    | none =>
      simp only [hv0] at h ⊢
      simp only [afterFormat_introPrefix, afterFormat_closerSentence,
        afterFormat_pocOpener, afterFormat_discipline]
      exact afterFormat_ok_valid _ _ _ _ _ _ _ _ _ _ _ hv0 h
    | some r1 =>
      simp only [hv0] at h ⊢
      cases hv1 : validateGenerated (normalizeNewlines (oracle 1))
          (genPicks patientLabelRaw disciplineRaw rand mem0).1.1
          (genPicks patientLabelRaw disciplineRaw rand mem0).1.2.1
          (genPicks patientLabelRaw disciplineRaw rand mem0).1.2.2
          (resolveDiscipline disciplineRaw) with
      | none =>
        simp only [hv1] at h ⊢
        simp only [afterFormat_introPrefix, afterFormat_closerSentence,
          afterFormat_pocOpener, afterFormat_discipline]
        exact afterFormat_ok_valid _ _ _ _ _ _ _ _ _ _ _ hv1 h
      | some r2 =>
        simp only [hv1] at h
        simp at h

set_option maxRecDepth 400000 in
/-- Witness for C1: the PT happy-path request publishes `noteBalance`,
which passed the Format Validator with the picks of that request. -/
theorem generate_published_passes_format_validator_witness :
    validateGenerated noteBalance
      (generate [] userTextBalance [] oracleBalance randZero []).introPrefix
      (generate [] userTextBalance [] oracleBalance randZero []).closerSentence
      (generate [] userTextBalance [] oracleBalance randZero []).pocOpener
      (generate [] userTextBalance [] oracleBalance randZero []).discipline = none :=
  generate_published_passes_format_validator [] userTextBalance [] oracleBalance
    randZero [] noteBalance none rfl

/-- `afterFormat` makes at most one oracle call beyond the `calls` already
made. -/
theorem afterFormat_calls_le (u i c p : Str) (d : Discipline) (out : Str)
    (calls : Nat) (oracle : Nat → Str) (mem : Mem) :
    (afterFormat u i c p d out calls oracle mem).oracleCalls ≤ calls + 1 := by
  cases d with
  | PT => exact contentStage_calls_le u i c p out calls oracle
  | OT => exact Nat.le_succ _

-- ---------------- C5 ----------------

/-- C5: a /generate request invokes the oracle at most three times — the
initial draft, at most one format-repair call, and at most one PT
content-repair call; there is no loop. -/
theorem generate_oracle_calls_at_most_three
    (patientLabelRaw userTextRaw disciplineRaw : Str) (oracle : Nat → Str)
    (rand : Nat → Nat) (mem0 : Mem) :
    (generate patientLabelRaw userTextRaw disciplineRaw oracle rand mem0).oracleCalls ≤ 3 := by
  unfold generate
  by_cases h400 : trimJs (normalizeSpaces userTextRaw) = []
  · rw [if_pos h400]
    simp
  · rw [if_neg h400]
    simp only []
    cases hv0 : validateGenerated (normalizeNewlines (oracle 0))
        (genPicks patientLabelRaw disciplineRaw rand mem0).1.1
        (genPicks patientLabelRaw disciplineRaw rand mem0).1.2.1
        (genPicks patientLabelRaw disciplineRaw rand mem0).1.2.2
        (resolveDiscipline disciplineRaw) with
    | none =>
      simp only [hv0]
      exact le_trans (afterFormat_calls_le _ _ _ _ _ _ _ _ _) (by omega)
    | some r1 =>
      simp only [hv0]
      cases hv1 : validateGenerated (normalizeNewlines (oracle 1))
          (genPicks patientLabelRaw disciplineRaw rand mem0).1.1
          (genPicks patientLabelRaw disciplineRaw rand mem0).1.2.1
          (genPicks patientLabelRaw disciplineRaw rand mem0).1.2.2
          (resolveDiscipline disciplineRaw) with
      | none =>
        simp only [hv1]
        exact le_trans (afterFormat_calls_le _ _ _ _ _ _ _ _ _) (by omega)
      | some r2 =>
        simp only [hv1]
        simp

-- ---------------- C6 ----------------

/-- C6: a request whose `userText` is empty or whitespace-only after
normalization and trimming is answered 400 with the error body, with no
oracle call (and no rotation pick) made. -/
theorem generate_empty_userText_400_no_oracle
    (patientLabelRaw userTextRaw disciplineRaw : Str) (oracle : Nat → Str)
    (rand : Nat → Nat) (mem0 : Mem)
    (h : trimJs (normalizeSpaces userTextRaw) = []) :
    (generate patientLabelRaw userTextRaw disciplineRaw oracle rand mem0).result =
      GenResult.badRequest errUserTextRequired ∧
    (generate patientLabelRaw userTextRaw disciplineRaw oracle rand mem0).oracleCalls = 0 ∧
    (generate patientLabelRaw userTextRaw disciplineRaw oracle rand mem0).pickCalls = 0 := by
  unfold generate
  rw [if_pos h]
  exact ⟨rfl, rfl, rfl⟩

/-- Witness for C6: a whitespace-only `userText` is rejected with 400 and
zero oracle calls. -/
theorem generate_empty_userText_400_no_oracle_witness :
    (generate [] (S "   ") [] oracleBalance randZero []).result =
      GenResult.badRequest errUserTextRequired ∧
    (generate [] (S "   ") [] oracleBalance randZero []).oracleCalls = 0 ∧
    (generate [] (S "   ") [] oracleBalance randZero []).pickCalls = 0 :=
  generate_empty_userText_400_no_oracle [] (S "   ") [] oracleBalance randZero [] rfl

-- ---------------- C9 ----------------

set_option maxRecDepth 400000 in
/-- C9 (counterexample to the spec's count of four): a successful
generation performs three `pickForPatient` calls, not four. -/
theorem generate_pick_calls_not_four :
    (generate [] userTextBalance [] oracleBalance randZero []).result.isOk = true ∧
    (generate [] userTextBalance [] oracleBalance randZero []).pickCalls ≠ 4 := by
  refine ⟨rfl, ?_⟩
  have h3 : (generate [] userTextBalance [] oracleBalance randZero []).pickCalls = 3 := rfl
  rw [h3]
  decide

/-- C9 (amended): during one successful note generation through
/generate, `pickForPatient` is invoked exactly three times — for the
intro prefix, the discipline-specific closing sentence, and the
discipline-specific plan-of-care opener. -/
theorem generate_success_pick_calls_three
    (patientLabelRaw userTextRaw disciplineRaw : Str) (oracle : Nat → Str)
    (rand : Nat → Nat) (mem0 : Mem)
    (h : (generate patientLabelRaw userTextRaw disciplineRaw oracle rand mem0).result.isOk = true) :
    (generate patientLabelRaw userTextRaw disciplineRaw oracle rand mem0).pickCalls = 3 := by
  unfold generate at h ⊢
  by_cases h400 : trimJs (normalizeSpaces userTextRaw) = []
  · rw [if_pos h400] at h
    simp [GenResult.isOk] at h
  · rw [if_neg h400]
    simp only []
    cases hv0 : validateGenerated (normalizeNewlines (oracle 0))
        (genPicks patientLabelRaw disciplineRaw rand mem0).1.1
        (genPicks patientLabelRaw disciplineRaw rand mem0).1.2.1
        (genPicks patientLabelRaw disciplineRaw rand mem0).1.2.2
        (resolveDiscipline disciplineRaw) with
    | none => simp only [hv0, afterFormat_pickCalls]
    | some r1 =>
      simp only [hv0]
      cases hv1 : validateGenerated (normalizeNewlines (oracle 1))
          (genPicks patientLabelRaw disciplineRaw rand mem0).1.1
          (genPicks patientLabelRaw disciplineRaw rand mem0).1.2.1
          (genPicks patientLabelRaw disciplineRaw rand mem0).1.2.2
          (resolveDiscipline disciplineRaw) with
      | none => simp only [hv1, afterFormat_pickCalls]
      | some r2 => simp only [hv1]

set_option maxRecDepth 400000 in
/-- Witness for the amended C9: the happy-path run succeeds and made
exactly three picks. -/
theorem generate_success_pick_calls_three_witness :
    (generate [] userTextBalance [] oracleBalance randZero []).pickCalls = 3 :=
  generate_success_pick_calls_three [] userTextBalance [] oracleBalance randZero [] rfl

-- ---------------- C7 ----------------

/-- C7: for an OT request the Content Validator is never invoked, no
third oracle call is made, and a 200 body is exactly the text that passed
format validation (first or repaired attempt), with no debug metadata and
no further modification. -/
theorem generate_OT_skips_content_validator
    (patientLabelRaw userTextRaw disciplineRaw : Str) (oracle : Nat → Str)
    (rand : Nat → Nat) (mem0 : Mem)
    (hd : resolveDiscipline disciplineRaw = Discipline.OT) :
    (generate patientLabelRaw userTextRaw disciplineRaw oracle rand mem0).muscleChecks = 0 ∧
    (generate patientLabelRaw userTextRaw disciplineRaw oracle rand mem0).oracleCalls ≤ 2 ∧
    ∀ s dbg,
      (generate patientLabelRaw userTextRaw disciplineRaw oracle rand mem0).result =
        GenResult.ok s dbg →
      dbg = none ∧
      validateGenerated s (genPicks patientLabelRaw disciplineRaw rand mem0).1.1
        (genPicks patientLabelRaw disciplineRaw rand mem0).1.2.1
        (genPicks patientLabelRaw disciplineRaw rand mem0).1.2.2
        Discipline.OT = none ∧
      (s = normalizeNewlines (oracle 0) ∨ s = normalizeNewlines (oracle 1)) := by
  unfold generate
  by_cases h400 : trimJs (normalizeSpaces userTextRaw) = []
  · rw [if_pos h400]
    refine ⟨by trivial, by simp, ?_⟩
    intro s dbg hok
    simp at hok
  · rw [if_neg h400]
    simp only [hd]
    cases hv0 : validateGenerated (normalizeNewlines (oracle 0))
        (genPicks patientLabelRaw disciplineRaw rand mem0).1.1
        (genPicks patientLabelRaw disciplineRaw rand mem0).1.2.1
        (genPicks patientLabelRaw disciplineRaw rand mem0).1.2.2
        Discipline.OT with
    | none =>
      simp only [hv0]
      unfold afterFormat
      refine ⟨by trivial, by simp, ?_⟩
      intro s dbg hok
      simp only [GenResult.ok.injEq] at hok
      exact ⟨hok.2.symm, hok.1 ▸ hv0, Or.inl hok.1.symm⟩
    | some r1 =>
      simp only [hv0]
      cases hv1 : validateGenerated (normalizeNewlines (oracle 1))
          (genPicks patientLabelRaw disciplineRaw rand mem0).1.1
          (genPicks patientLabelRaw disciplineRaw rand mem0).1.2.1
          (genPicks patientLabelRaw disciplineRaw rand mem0).1.2.2
          Discipline.OT with
      | none =>
        simp only [hv1]
        unfold afterFormat
        refine ⟨by trivial, by simp, ?_⟩
        intro s dbg hok
        simp only [GenResult.ok.injEq] at hok
        exact ⟨hok.2.symm, hok.1 ▸ hv1, Or.inr hok.1.symm⟩
      | some r2 =>
        simp only [hv1]
        refine ⟨by trivial, by simp, ?_⟩
        intro s dbg hok
        simp at hok

set_option maxRecDepth 400000 in
/-- Witness for C7: an OT request on the OT happy path — no muscle check,
two oracle calls at most, and the published body is the validated draft. -/
theorem generate_OT_skips_content_validator_witness :
    (generate [] userTextBalance (S "OT") oracleOT randZero []).muscleChecks = 0 ∧
    (generate [] userTextBalance (S "OT") oracleOT randZero []).oracleCalls ≤ 2 ∧
    ∀ s dbg,
      (generate [] userTextBalance (S "OT") oracleOT randZero []).result =
        GenResult.ok s dbg →
      dbg = none ∧
      validateGenerated s (genPicks [] (S "OT") randZero []).1.1
        (genPicks [] (S "OT") randZero []).1.2.1
        (genPicks [] (S "OT") randZero []).1.2.2
        Discipline.OT = none ∧
      (s = normalizeNewlines (oracleOT 0) ∨ s = normalizeNewlines (oracleOT 1)) :=
  generate_OT_skips_content_validator [] userTextBalance (S "OT") oracleOT randZero [] rfl

-- ---------------- C3 ----------------

set_option maxRecDepth 400000 in
/-- C3 (counterexample): a run that receives 422 although the Format
Validator succeeded on the initial draft and no format-repair call was
made — the 422 comes from the PT content-repair output breaking format.
This refutes the claim that a 422 happens only when format validation
failed on the initial draft and again after the format-repair call. -/
theorem generate_422_despite_initial_format_pass :
    (generate [] userTextShoulder [] oracleShoulderBad randZero []).result.is422 = true ∧
    validateGenerated (normalizeNewlines (oracleShoulderBad 0)) introPick0 closerPickPT0
      pocPick0 Discipline.PT = none ∧
    (generate [] userTextShoulder [] oracleShoulderBad randZero []).oracleCalls = 2 :=
  ⟨rfl, rfl, rfl⟩

/-- C3 (amended): a request is answered 422 in exactly two situations,
and in both the echoed raw text fails the Format Validator: either the
Format Validator failed on the initial draft and again on the
format-repair output (which is echoed as raw), or the discipline is PT,
the attempt that passed format validation (the initial draft, or the
format-repair output after the draft had failed) has a Summary failing
the muscle-specificity check, and the content-repair output failed the
Format Validator (that output is echoed as raw). -/
theorem generate_422_characterization
    (patientLabelRaw userTextRaw disciplineRaw : Str) (oracle : Nat → Str)
    (rand : Nat → Nat) (mem0 : Mem) (e : Str) (rs : List Str) (raw : Str)
    (h : (generate patientLabelRaw userTextRaw disciplineRaw oracle rand mem0).result =
      GenResult.unprocessable e rs raw) :
    (validateGenerated (normalizeNewlines (oracle 0))
        (genPicks patientLabelRaw disciplineRaw rand mem0).1.1
        (genPicks patientLabelRaw disciplineRaw rand mem0).1.2.1
        (genPicks patientLabelRaw disciplineRaw rand mem0).1.2.2
        (resolveDiscipline disciplineRaw) ≠ none ∧
      validateGenerated (normalizeNewlines (oracle 1))
        (genPicks patientLabelRaw disciplineRaw rand mem0).1.1
        (genPicks patientLabelRaw disciplineRaw rand mem0).1.2.1
        (genPicks patientLabelRaw disciplineRaw rand mem0).1.2.2
        (resolveDiscipline disciplineRaw) ≠ none ∧
      raw = normalizeNewlines (oracle 1)) ∨
    (resolveDiscipline disciplineRaw = Discipline.PT ∧
      validateGenerated raw
        (genPicks patientLabelRaw disciplineRaw rand mem0).1.1
        (genPicks patientLabelRaw disciplineRaw rand mem0).1.2.1
        (genPicks patientLabelRaw disciplineRaw rand mem0).1.2.2
        (resolveDiscipline disciplineRaw) ≠ none ∧
      ∃ out calls secs rM,
        ((validateGenerated (normalizeNewlines (oracle 0))
            (genPicks patientLabelRaw disciplineRaw rand mem0).1.1
            (genPicks patientLabelRaw disciplineRaw rand mem0).1.2.1
            (genPicks patientLabelRaw disciplineRaw rand mem0).1.2.2
            (resolveDiscipline disciplineRaw) = none ∧
          out = normalizeNewlines (oracle 0) ∧ calls = 1) ∨
         (validateGenerated (normalizeNewlines (oracle 0))
            (genPicks patientLabelRaw disciplineRaw rand mem0).1.1
            (genPicks patientLabelRaw disciplineRaw rand mem0).1.2.1
            (genPicks patientLabelRaw disciplineRaw rand mem0).1.2.2
            (resolveDiscipline disciplineRaw) ≠ none ∧
          validateGenerated (normalizeNewlines (oracle 1))
            (genPicks patientLabelRaw disciplineRaw rand mem0).1.1
            (genPicks patientLabelRaw disciplineRaw rand mem0).1.2.1
            (genPicks patientLabelRaw disciplineRaw rand mem0).1.2.2
            (resolveDiscipline disciplineRaw) = none ∧
          out = normalizeNewlines (oracle 1) ∧ calls = 2)) ∧
        splitSections out = some secs ∧
        validatePTVisitSummaryMuscleSpecificity secs.summary
          (normalizeSpaces userTextRaw) = some rM ∧
        raw = contentRepairOut out calls oracle) := by
  unfold generate at h
  by_cases h400 : trimJs (normalizeSpaces userTextRaw) = []
  · rw [if_pos h400] at h
    simp at h
  · rw [if_neg h400] at h
    simp only [] at h
    cases hdd : resolveDiscipline disciplineRaw with
    | OT =>
      simp only [hdd] at h ⊢
      cases hv0 : validateGenerated (normalizeNewlines (oracle 0))
          (genPicks patientLabelRaw disciplineRaw rand mem0).1.1
          (genPicks patientLabelRaw disciplineRaw rand mem0).1.2.1
          (genPicks patientLabelRaw disciplineRaw rand mem0).1.2.2
          Discipline.OT with
      | none =>
        simp only [hv0] at h
        unfold afterFormat at h
        simp at h
      | some r1 =>
        simp only [hv0] at h ⊢
        cases hv1 : validateGenerated (normalizeNewlines (oracle 1))
            (genPicks patientLabelRaw disciplineRaw rand mem0).1.1
            (genPicks patientLabelRaw disciplineRaw rand mem0).1.2.1
            (genPicks patientLabelRaw disciplineRaw rand mem0).1.2.2
            Discipline.OT with
        | none =>
          simp only [hv1] at h
          unfold afterFormat at h
          simp at h
        | some r2 =>
          simp only [hv1] at h ⊢
          simp only [GenResult.unprocessable.injEq] at h
          exact Or.inl ⟨by simp, by simp, h.2.2.symm⟩
    | PT =>
      simp only [hdd] at h ⊢
      cases hv0 : validateGenerated (normalizeNewlines (oracle 0))
          (genPicks patientLabelRaw disciplineRaw rand mem0).1.1
          (genPicks patientLabelRaw disciplineRaw rand mem0).1.2.1
          (genPicks patientLabelRaw disciplineRaw rand mem0).1.2.2
          Discipline.PT with
      | none =>
        simp only [hv0] at h ⊢
        unfold afterFormat at h
        simp only [] at h
        obtain ⟨secs, rM, hsec, hm, hf, hraw⟩ :=
          contentStage_unprocessable_spec _ _ _ _ _ _ _ _ _ _ h
        right
        refine ⟨by trivial, ?_, ?_⟩
        · rw [hraw]; exact hf
        · refine ⟨normalizeNewlines (oracle 0), 1, secs, rM, ?_, hsec, hm, hraw⟩
          exact Or.inl ⟨by trivial, rfl, rfl⟩
      | some r1 =>
        simp only [hv0] at h ⊢
        cases hv1 : validateGenerated (normalizeNewlines (oracle 1))
            (genPicks patientLabelRaw disciplineRaw rand mem0).1.1
            (genPicks patientLabelRaw disciplineRaw rand mem0).1.2.1
            (genPicks patientLabelRaw disciplineRaw rand mem0).1.2.2
            Discipline.PT with
        | none =>
          simp only [hv1] at h ⊢
          unfold afterFormat at h
          simp only [] at h
          obtain ⟨secs, rM, hsec, hm, hf, hraw⟩ :=
            contentStage_unprocessable_spec _ _ _ _ _ _ _ _ _ _ h
          right
          refine ⟨by trivial, ?_, ?_⟩
          · rw [hraw]; exact hf
          · refine ⟨normalizeNewlines (oracle 1), 2, secs, rM, ?_, hsec, hm, hraw⟩
            exact Or.inr ⟨by simp, by trivial, rfl, rfl⟩
        | some r2 =>
          simp only [hv1] at h ⊢
          simp only [GenResult.unprocessable.injEq] at h
          exact Or.inl ⟨by simp, by simp, h.2.2.symm⟩

set_option maxRecDepth 400000 in
/-- Witness for the amended C3: in the shoulder run whose content repair
broke formatting, the 422 falls in the content-repair case — the
format-passing draft had a muscle failure and the echoed repair output
fails the Format Validator. -/
theorem generate_422_characterization_witness :
    (validateGenerated (normalizeNewlines (oracleShoulderBad 0))
        (genPicks [] [] randZero []).1.1 (genPicks [] [] randZero []).1.2.1
        (genPicks [] [] randZero []).1.2.2 (resolveDiscipline []) ≠ none ∧
      validateGenerated (normalizeNewlines (oracleShoulderBad 1))
        (genPicks [] [] randZero []).1.1 (genPicks [] [] randZero []).1.2.1
        (genPicks [] [] randZero []).1.2.2 (resolveDiscipline []) ≠ none ∧
      S "x" = normalizeNewlines (oracleShoulderBad 1)) ∨
    (resolveDiscipline [] = Discipline.PT ∧
      validateGenerated (S "x")
        (genPicks [] [] randZero []).1.1 (genPicks [] [] randZero []).1.2.1
        (genPicks [] [] randZero []).1.2.2 (resolveDiscipline []) ≠ none ∧
      ∃ out calls secs rM,
        ((validateGenerated (normalizeNewlines (oracleShoulderBad 0))
            (genPicks [] [] randZero []).1.1 (genPicks [] [] randZero []).1.2.1
            (genPicks [] [] randZero []).1.2.2 (resolveDiscipline []) = none ∧
          out = normalizeNewlines (oracleShoulderBad 0) ∧ calls = 1) ∨
         (validateGenerated (normalizeNewlines (oracleShoulderBad 0))
            (genPicks [] [] randZero []).1.1 (genPicks [] [] randZero []).1.2.1
            (genPicks [] [] randZero []).1.2.2 (resolveDiscipline []) ≠ none ∧
          validateGenerated (normalizeNewlines (oracleShoulderBad 1))
            (genPicks [] [] randZero []).1.1 (genPicks [] [] randZero []).1.2.1
            (genPicks [] [] randZero []).1.2.2 (resolveDiscipline []) = none ∧
          out = normalizeNewlines (oracleShoulderBad 1) ∧ calls = 2)) ∧
        splitSections out = some secs ∧
        validatePTVisitSummaryMuscleSpecificity secs.summary
          (normalizeSpaces userTextShoulder) = some rM ∧
        S "x" = contentRepairOut out calls oracleShoulderBad) :=
  generate_422_characterization [] userTextShoulder [] oracleShoulderBad randZero []
    errMuscleRepairBrokeFormat [vrParseFail] (S "x") rfl

-- ---------------- C4 ----------------

/-- C4: a PT request whose note passed format validation (on the first
attempt, or on the format-repair attempt after the draft failed), whose
muscle check on that note's Summary failed, and whose content-repair
output again passes the Format Validator, is answered 200 with the
repaired note published even if the content check still fails; on a
residual content failure the body carries
`debug = (muscleRuleFail, muscleRuleStillFail)` naming the original and
residual reasons — a content failure alone never yields an error status. -/
theorem generate_content_failure_never_terminal
    (patientLabelRaw userTextRaw disciplineRaw : Str) (oracle : Nat → Str)
    (rand : Nat → Nat) (mem0 : Mem) (out : Str) (calls : Nat)
    (secs : Sections) (rM : Str)
    (h400 : trimJs (normalizeSpaces userTextRaw) ≠ [])
    (hd : resolveDiscipline disciplineRaw = Discipline.PT)
    (hout : (validateGenerated (normalizeNewlines (oracle 0))
        (genPicks patientLabelRaw disciplineRaw rand mem0).1.1
        (genPicks patientLabelRaw disciplineRaw rand mem0).1.2.1
        (genPicks patientLabelRaw disciplineRaw rand mem0).1.2.2
        Discipline.PT = none ∧
        out = normalizeNewlines (oracle 0) ∧ calls = 1) ∨
      (validateGenerated (normalizeNewlines (oracle 0))
        (genPicks patientLabelRaw disciplineRaw rand mem0).1.1
        (genPicks patientLabelRaw disciplineRaw rand mem0).1.2.1
        (genPicks patientLabelRaw disciplineRaw rand mem0).1.2.2
        Discipline.PT ≠ none ∧
        validateGenerated (normalizeNewlines (oracle 1))
        (genPicks patientLabelRaw disciplineRaw rand mem0).1.1
        (genPicks patientLabelRaw disciplineRaw rand mem0).1.2.1
        (genPicks patientLabelRaw disciplineRaw rand mem0).1.2.2
        Discipline.PT = none ∧
        out = normalizeNewlines (oracle 1) ∧ calls = 2))
    (h2 : splitSections out = some secs)
    (h3 : validatePTVisitSummaryMuscleSpecificity secs.summary
      (normalizeSpaces userTextRaw) = some rM)
    (h4 : validateGenerated (contentRepairOut out calls oracle)
      (genPicks patientLabelRaw disciplineRaw rand mem0).1.1
      (genPicks patientLabelRaw disciplineRaw rand mem0).1.2.1
      (genPicks patientLabelRaw disciplineRaw rand mem0).1.2.2
      Discipline.PT = none) :
    (generate patientLabelRaw userTextRaw disciplineRaw oracle rand mem0).result =
      GenResult.ok (contentRepairOut out calls oracle)
        (muscleDebug (normalizeSpaces userTextRaw)
          (contentRepairOut out calls oracle) rM) := by
  unfold generate
  rw [if_neg h400]
  simp only [hd]
  rcases hout with ⟨h1, ho, hc⟩ | ⟨h1, h1b, ho, hc⟩
  · subst ho
    subst hc
    simp only [h1]
    unfold afterFormat
    simp only []
    exact contentStage_residual_publish _ _ _ _ _ _ _ _ _ h2 h3 h4
  · subst ho
    subst hc
    cases hval0 : validateGenerated (normalizeNewlines (oracle 0))
        (genPicks patientLabelRaw disciplineRaw rand mem0).1.1
        (genPicks patientLabelRaw disciplineRaw rand mem0).1.2.1
        (genPicks patientLabelRaw disciplineRaw rand mem0).1.2.2
        Discipline.PT with
    | none => exact absurd hval0 h1
    | some r1 =>
      simp only [hval0, h1b]
      unfold afterFormat
      simp only []
      exact contentStage_residual_publish _ _ _ _ _ _ _ _ _ h2 h3 h4

set_option maxRecDepth 400000 in
/-- Witness for C4: a run whose draft fails format, whose format repair
yields the shoulder note (format-valid, muscles missing), and whose
content repair keeps the format while still missing the muscles, is
published with debug metadata carrying the original and residual reasons
(both the shoulder rule). -/
theorem generate_content_failure_never_terminal_witness :
    (generate [] userTextShoulder [] oracleShoulderMixed randZero []).result =
      GenResult.ok
        (contentRepairOut (normalizeNewlines (oracleShoulderMixed 1)) 2 oracleShoulderMixed)
        (muscleDebug (normalizeSpaces userTextShoulder)
          (contentRepairOut (normalizeNewlines (oracleShoulderMixed 1)) 2 oracleShoulderMixed)
          mrShoulder) :=
  generate_content_failure_never_terminal [] userTextShoulder [] oracleShoulderMixed
    randZero [] (normalizeNewlines (oracleShoulderMixed 1)) 2 secsShoulder mrShoulder
    (by decide) rfl (Or.inr ⟨by decide, rfl, rfl, rfl⟩) rfl rfl rfl

end GScribe

